import Mathlib

/-!
Shallow embedding of the virtio-vsock socket layer found in
`src/executor/vsock.rs` (crate `kernel`): the connection registry
(`VsockMap`), the per-port socket state (`RawSocket`), the single-slot
waker (`WakerRegistration`), and one scheduling turn of the packet pump
(`vsock_run`'s `process_packet` callback plus the reply construction of
its `send_packet` callback).

Machine integers are modelled as `Nat` with explicit bounds where the
source performs a fallible conversion (`try_into().unwrap()`).  A Rust
panic (an `unwrap` that fails) is modelled by the handler returning
`none`.  Little-endian wrappers (`le16`/`le32`/`le64`) with `.to_ne()` /
`from_ne` round-trips are identities in this model, so header fields are
plain `Nat`.
-/

set_option autoImplicit false

namespace VsockModel

/-- Embeds `virtio::vsock::Op`, the 16-bit operation code of the vsock
header (a dependency of the repository; variants and discriminants follow
the virtio specification constants `VIRTIO_VSOCK_OP_*`). -/
inductive Op where
  | Invalid
  | Request
  | Response
  | Rst
  | Shutdown
  | Rw
  | CreditUpdate
  | CreditRequest
deriving DecidableEq

/-- Embeds `Into<u16> for Op` (the `.into()` used when the pump writes the
reply's `op` field). -/
def Op.into : Op → Nat
  | .Invalid => 0
  | .Request => 1
  | .Response => 2
  | .Rst => 3
  | .Shutdown => 4
  | .Rw => 5
  | .CreditUpdate => 6
  | .CreditRequest => 7

/-- Embeds `TryFrom<u16> for Op`: every 16-bit code outside `0..=7` fails
to decode. -/
def Op.try_from : Nat → Option Op
  | 0 => some .Invalid
  | 1 => some .Request
  | 2 => some .Response
  | 3 => some .Rst
  | 4 => some .Shutdown
  | 5 => some .Rw
  | 6 => some .CreditUpdate
  | 7 => some .CreditRequest
  | _ => none

/-- Embeds `virtio::vsock::Type`, the 16-bit socket-type code (`Type` is a
Lean keyword, hence the name `VsockType`). Discriminants follow
`VIRTIO_VSOCK_TYPE_STREAM = 1`, `VIRTIO_VSOCK_TYPE_SEQPACKET = 2`. -/
inductive VsockType where
  | Stream
  | Seqpacket
deriving DecidableEq

/-- Embeds `TryFrom<u16> for Type`: codes other than 1 and 2 fail to
decode. -/
def VsockType.try_from : Nat → Option VsockType
  | 1 => some .Stream
  | 2 => some .Seqpacket
  | _ => none

/-- Embeds `virtio::vsock::Hdr`, the fixed-size vsock packet header.
Context ids are 64-bit on the wire (`le64`), ports and the remaining
fields 32-bit, `type_` and `op` 16-bit; all modelled as `Nat`. -/
structure Hdr where
  src_cid : Nat
  dst_cid : Nat
  src_port : Nat
  dst_port : Nat
  len : Nat
  type_ : Nat
  op : Nat
  flags : Nat
  buf_alloc : Nat
  fwd_cnt : Nat
deriving DecidableEq

/-- Embeds `crate::io::Error` restricted to the only variant this module
uses, `EADDRINUSE`. -/
inductive IoError where
  | EADDRINUSE
deriving DecidableEq

/-- Embeds `VsockState` (vsock.rs lines 21-28). -/
inductive VsockState where
  | Listen
  | ReceiveRequest
  | Connected
  | Connecting
  | Shutdown
deriving DecidableEq

/-- A `core::task::Waker` is opaque; `will_wake` compares the underlying
task identity, modelled here as a numeric id. -/
structure Waker where
  id : Nat
deriving DecidableEq

/-- Embeds `Waker::will_wake`: true exactly when both handles wake the
same task. -/
def Waker.will_wake (w2 w : Waker) : Bool :=
  w2.id == w.id

/-- Embeds `WakerRegistration` (vsock.rs lines 32-35): a single optional
waker slot. -/
structure WakerRegistration where
  waker : Option Waker
deriving DecidableEq

/-- Embeds `WakerRegistration::new`. -/
def WakerRegistration.new : WakerRegistration :=
  { waker := none }

/-- Embeds `WakerRegistration::register` (vsock.rs lines 43-54): keep the
old waker when it would wake the same task, otherwise store the new one. -/
def WakerRegistration.register (s : WakerRegistration) (w : Waker) : WakerRegistration :=
  match s.waker with
  | some w2 => if w2.will_wake w then s else { waker := some w }
  | none => { waker := some w }

/-- Embeds `WakerRegistration::wake` (vsock.rs lines 57-61): take the
waker out of the slot and invoke it.  The second component is the list of
task ids actually woken by the call (empty or a singleton). -/
def WakerRegistration.wake (s : WakerRegistration) : WakerRegistration × List Nat :=
  match s.waker with
  | some w => ({ waker := none }, [w.id])
  | none => ({ waker := none }, [])

/-- Embeds `RAW_SOCKET_BUFFER_SIZE` (vsock.rs line 64). -/
def RAW_SOCKET_BUFFER_SIZE : Nat := 256 * 1024

/-- Embeds `RawSocket` (vsock.rs lines 66-73); `buffer: Vec<u8>` becomes a
list of bytes. -/
structure RawSocket where
  remote_cid : Nat
  remote_port : Nat
  state : VsockState
  waker : WakerRegistration
  buffer : List Nat
deriving DecidableEq

/-- Embeds `RawSocket::new` (vsock.rs lines 76-84); the pre-reserved
capacity has no observable content, so the buffer starts empty. -/
def RawSocket.new (state : VsockState) : RawSocket :=
  { remote_cid := 0
    remote_port := 0
    state := state
    waker := WakerRegistration.new
    buffer := [] }

/-- Lookup in the association-list model of `BTreeMap<u32, RawSocket>`:
returns the value stored at the first matching key. -/
def findEntry : List (Nat × RawSocket) → Nat → Option RawSocket
  | [], _ => none
  | e :: rest, port => if e.1 = port then some e.2 else findEntry rest port

/-- Pointwise update in the association-list model, used to express the
effect of mutation through `get_mut_socket`'s `&mut RawSocket`. -/
def setEntry : List (Nat × RawSocket) → Nat → RawSocket → List (Nat × RawSocket)
  | [], _, _ => []
  | e :: rest, port, s =>
    (if e.1 = port then (e.1, s) else e) :: setEntry rest port s

/-- Embeds `VsockMap` (vsock.rs lines 160-162); the `BTreeMap` is
modelled as an association list with unique keys (insertion position is
irrelevant to `get`/`try_insert`/`remove` semantics). -/
structure VsockMap where
  port_map : List (Nat × RawSocket)
deriving DecidableEq

/-- Embeds `VsockMap::new`. -/
def VsockMap.new : VsockMap :=
  { port_map := [] }

/-- Embeds `VsockMap::bind` (vsock.rs lines 171-176): `try_insert` adds a
fresh `Listen` socket when the key is absent and fails with `EADDRINUSE`
— leaving the map untouched — when the key is present.  Returned as the
post-state together with the `io::Result<()>`. -/
def VsockMap.bind (m : VsockMap) (port : Nat) : VsockMap × Except IoError Unit :=
  match findEntry m.port_map port with
  | some _ => (m, Except.error IoError.EADDRINUSE)
  | none =>
    ({ port_map := m.port_map ++ [(port, RawSocket.new VsockState.Listen)] }, Except.ok ())

/-- Embeds `VsockMap::get_socket` (and the lookup done by
`get_mut_socket`, vsock.rs lines 178-184). -/
def VsockMap.get_socket (m : VsockMap) (port : Nat) : Option RawSocket :=
  findEntry m.port_map port

/-- Writing back through `get_mut_socket`'s mutable reference. -/
def VsockMap.set_socket (m : VsockMap) (port : Nat) (s : RawSocket) : VsockMap :=
  { port_map := setEntry m.port_map port s }

/-- Embeds `VsockMap::remove_socket` (vsock.rs lines 186-188): delete the
entry if present, silently do nothing otherwise. -/
def VsockMap.remove_socket (m : VsockMap) (port : Nat) : VsockMap :=
  { port_map := m.port_map.filter (fun e => e.1 != port) }

/-- Embeds Rust `u64 -> u32` / `usize -> u32` `try_into()`: succeeds
exactly when the value fits in 32 bits. -/
def toU32 (n : Nat) : Option Nat :=
  if n < 2 ^ 32 then some n else none

/-- Observable effect of one `process_packet` callback invocation:
post-registry, list of task ids woken, and the `hdr` / `fwd_cnt` locals
captured for reply construction (vsock.rs lines 92-93). -/
structure PumpEffect where
  map : VsockMap
  wakes : List Nat
  hdr : Option Hdr
  fwd_cnt : Option Nat
deriving DecidableEq

/-- Embeds the `process_packet` callback of `vsock_run` (vsock.rs lines
95-126).  `none` models a panic: a failing `Op::try_from(..).unwrap()`,
`Type::try_from(..).unwrap()`, or `try_into().unwrap()`. -/
def handle_packet (m : VsockMap) (header : Hdr) (data : List Nat) : Option PumpEffect :=
  match Op.try_from header.op with
  | none => none
  | some op =>
    let port := header.dst_port
    match VsockType.try_from header.type_ with
    | none => none
    | some type_ =>
      match m.get_socket port with
      | none => some { map := m, wakes := [], hdr := none, fwd_cnt := none }
      | some raw =>
        if op = Op.Request ∧ raw.state = VsockState.Listen ∧ type_ = VsockType.Stream then
          match toU32 header.src_cid with
          | none => none
          | some cid =>
            let w := raw.waker.wake
            some { map := m.set_socket port
                     { raw with
                        state := VsockState.ReceiveRequest
                        remote_cid := cid
                        remote_port := header.src_port
                        waker := w.1 }
                   wakes := w.2, hdr := none, fwd_cnt := none }
        else if (raw.state = VsockState.Connected ∨ raw.state = VsockState.Shutdown)
            ∧ type_ = VsockType.Stream ∧ op = Op.Rw then
          let w := raw.waker.wake
          some { map := m.set_socket port
                   { raw with buffer := raw.buffer ++ data, waker := w.1 }
                 wakes := w.2, hdr := none, fwd_cnt := none }
        else if op = Op.CreditUpdate then
          -- `debug!` log only; no state change
          some { map := m, wakes := [], hdr := none, fwd_cnt := none }
        else if op = Op.Shutdown then
          some { map := m.set_socket port { raw with state := VsockState.Shutdown }
                 wakes := [], hdr := none, fwd_cnt := none }
        else
          if op = Op.CreditRequest then
            match toU32 raw.buffer.length with
            | none => none
            | some n => some { map := m, wakes := [], hdr := some header, fwd_cnt := some n }
          else
            some { map := m, wakes := [], hdr := some header, fwd_cnt := none }

/-- Embeds the reply construction inside `send_packet` (vsock.rs lines
129-149): addresses swapped, zero length, `CreditUpdate` carrying the
captured forward count when one exists, `Rst` with forward count zero
otherwise, `buf_alloc` fixed to the raw-socket buffer capacity. -/
def build_reply (hdr : Hdr) (fwd_cnt : Option Nat) : Hdr :=
  { src_cid := hdr.dst_cid
    dst_cid := hdr.src_cid
    src_port := hdr.dst_port
    dst_port := hdr.src_port
    len := 0
    type_ := hdr.type_
    op := match fwd_cnt with
          | some _ => Op.CreditUpdate.into
          | none => Op.Rst.into
    flags := 0
    buf_alloc := RAW_SOCKET_BUFFER_SIZE % 2 ^ 32
    fwd_cnt := match fwd_cnt with
               | some n => n
               | none => 0 }

/-- One full pump turn on one inbound packet (vsock.rs lines 95-150):
process it, then — exactly when the `hdr` local was set — transmit the
constructed reply.  Result: post-registry, woken task ids, and the reply
packet if one was sent; `none` models a panic inside the turn. -/
def vsock_run_step (m : VsockMap) (header : Hdr) (data : List Nat) :
    Option (VsockMap × List Nat × Option Hdr) :=
  match handle_packet m header data with
  | none => none
  | some r => some (r.map, r.wakes, r.hdr.map (fun h => build_reply h r.fwd_cnt))

/-- Registry operations invoked by the socket layer above, for stating
the registry lifetime invariant. -/
inductive RegEvent where
  | bindEv : Nat → RegEvent
  | removeEv : Nat → RegEvent
deriving DecidableEq

/-- Apply one registry operation (a failed `bind` leaves the map
unchanged, mirroring `try_insert`). -/
def applyEvent (m : VsockMap) : RegEvent → VsockMap
  | .bindEv p => (m.bind p).1
  | .removeEv p => m.remove_socket p

/-- Run a sequence of registry operations. -/
def runEvents (m : VsockMap) (evs : List RegEvent) : VsockMap :=
  evs.foldl applyEvent m

/-- Modelled from the spec: "a Connection exists in the Registry if and
only if it was bound and not yet explicitly removed".  Tracks, along an
event trace, whether port `p` is bound, starting from boundness `b`. -/
def specBoundNotRemoved (p : Nat) (b : Bool) (evs : List RegEvent) : Bool :=
  evs.foldl
    (fun st ev =>
      match ev with
      | .bindEv q => if q = p then true else st
      | .removeEv q => if q = p then false else st)
    b

/- Concrete fixtures used by witnesses and counterexamples. -/

/-- Header with all protocol-irrelevant fields zeroed. -/
def mkHdr (scid dcid sport dport ty opc : Nat) : Hdr :=
  { src_cid := scid, dst_cid := dcid, src_port := sport, dst_port := dport
    len := 0, type_ := ty, op := opc, flags := 0, buf_alloc := 0, fwd_cnt := 0 }

/-- A registry with one listening socket bound at port 1234. -/
def exListenMap : VsockMap :=
  { port_map := [(1234, RawSocket.new VsockState.Listen)] }

/-- A connected socket with a registered waker (task id 7). -/
def exConnSocket : RawSocket :=
  { remote_cid := 2, remote_port := 5, state := VsockState.Connected
    waker := { waker := some { id := 7 } }, buffer := [] }

/-- A registry with `exConnSocket` bound at port 80. -/
def exConnMap : VsockMap :=
  { port_map := [(80, exConnSocket)] }

/-- A socket in `Connecting` state with nonempty buffer and a remote
identity, to exercise the shutdown rule from an arbitrary state. -/
def exConnectingSocket : RawSocket :=
  { remote_cid := 9, remote_port := 10, state := VsockState.Connecting
    waker := { waker := some { id := 3 } }, buffer := [42] }

/-- A registry with `exConnectingSocket` bound at port 44. -/
def exConnectingMap : VsockMap :=
  { port_map := [(44, exConnectingSocket)] }

/-- `exConnSocket` after one Rw delivery of bytes `[65, 66]`. -/
def exConnSocket1 : RawSocket :=
  { exConnSocket with buffer := [65, 66], waker := { waker := none } }

/-- `exConnMap` after one Rw delivery of bytes `[65, 66]`. -/
def exConnMap1 : VsockMap :=
  exConnMap.set_socket 80 exConnSocket1

end VsockModel

namespace VsockModel

/-! ## General lemmas about the model -/

/-- Taking the waker out always leaves the slot empty. -/
theorem WakerRegistration.wake_fst (s : WakerRegistration) : s.wake.1 = { waker := none } := by
  cases s with
  | mk o => cases o <;> rfl

/-- Appending a binding for `p` to a list without one makes `p` resolve to it. -/
theorem findEntry_append_self (l : List (Nat × RawSocket)) (p : Nat) (s : RawSocket)
    (h : findEntry l p = none) : findEntry (l ++ [(p, s)]) p = some s := by
  induction l with
  | nil => simp [findEntry]
  | cons e rest ih =>
    rw [findEntry] at h
    by_cases he : e.1 = p
    · rw [if_pos he] at h
      exact Option.noConfusion h
    · rw [if_neg he] at h
      rw [List.cons_append, findEntry, if_neg he]
      exact ih h

/-- Appending a binding for a different port does not affect lookup. -/
theorem findEntry_append_other (l : List (Nat × RawSocket)) (p q : Nat) (s : RawSocket)
    (h : q ≠ p) : findEntry (l ++ [(q, s)]) p = findEntry l p := by
  induction l with
  | nil => simp [findEntry, h]
  | cons e rest ih =>
    by_cases he : e.1 = p
    · rw [List.cons_append, findEntry, if_pos he, findEntry, if_pos he]
    · rw [List.cons_append, findEntry, if_neg he, findEntry, if_neg he]
      exact ih

/-- After removal, the port no longer resolves. -/
theorem findEntry_filter_self (l : List (Nat × RawSocket)) (p : Nat) :
    findEntry (l.filter (fun e => e.1 != p)) p = none := by
  induction l with
  | nil => rfl
  | cons e rest ih =>
    by_cases he : e.1 = p
    · simpa [List.filter_cons, he] using ih
    · simpa [List.filter_cons, he, findEntry] using ih

/-- Removing a different port does not affect lookup. -/
theorem findEntry_filter_other (l : List (Nat × RawSocket)) (p q : Nat) (h : p ≠ q) :
    findEntry (l.filter (fun e => e.1 != q)) p = findEntry l p := by
  induction l with
  | nil => rfl
  | cons e rest ih =>
    by_cases he : e.1 = p
    · have hq : (e.1 != q) = true := by simp [he, h]
      rw [List.filter_cons, hq]
      simp only [findEntry, if_pos he]
    · by_cases heq : e.1 = q
      · rw [List.filter_cons]
        simp only [heq, bne_self_eq_false]
        rw [findEntry, if_neg he]
        exact ih
      · have hq : (e.1 != q) = true := by simp [heq]
        rw [List.filter_cons, hq, if_pos rfl]
        rw [findEntry, if_neg he, findEntry, if_neg he]
        exact ih

/-- Updating one port does not affect lookups of another. -/
theorem findEntry_setEntry_other (l : List (Nat × RawSocket)) (p q : Nat) (s : RawSocket)
    (h : p ≠ q) : findEntry (setEntry l p s) q = findEntry l q := by
  induction l with
  | nil => rfl
  | cons e rest ih =>
    by_cases he : e.1 = p
    · simp only [setEntry, if_pos he, findEntry]
      rw [if_neg (he ▸ h), if_neg (he ▸ h)]
      exact ih
    · simp only [setEntry, if_neg he, findEntry]
      by_cases heq : e.1 = q
      · rw [if_pos heq, if_pos heq]
      · rw [if_neg heq, if_neg heq]
        exact ih

/-- Removing an absent port leaves the underlying list untouched. -/
theorem filter_eq_of_absent (l : List (Nat × RawSocket)) (p : Nat)
    (h : findEntry l p = none) : l.filter (fun e => e.1 != p) = l := by
  induction l with
  | nil => rfl
  | cons e rest ih =>
    rw [findEntry] at h
    by_cases he : e.1 = p
    · rw [if_pos he] at h
      exact Option.noConfusion h
    · rw [if_neg he] at h
      have hq : (e.1 != p) = true := by simp [he]
      simp [List.filter_cons, hq, ih h]

/-- One registry operation changes the boundness of port `p` exactly as the
spec-side tracker predicts. -/
theorem applyEvent_bound (m : VsockMap) (ev : RegEvent) (p : Nat) :
    ((applyEvent m ev).get_socket p).isSome
      = (match ev with
         | .bindEv q => if q = p then true else ((m.get_socket p).isSome)
         | .removeEv q => if q = p then false else ((m.get_socket p).isSome)) := by
  cases ev with
  | bindEv q =>
    by_cases hq : q = p
    · subst hq
      simp only [applyEvent, VsockMap.bind, if_pos rfl]
      cases hg : findEntry m.port_map q with
      | none =>
        simp [VsockMap.get_socket, findEntry_append_self _ _ _ hg]
      | some s =>
        simp [VsockMap.get_socket, hg]
    · simp only [applyEvent, VsockMap.bind, if_neg hq]
      cases hg : findEntry m.port_map q with
      | none =>
        simp [VsockMap.get_socket, findEntry_append_other _ _ _ _ hq]
      | some s =>
        simp [VsockMap.get_socket]
  | removeEv q =>
    by_cases hq : q = p
    · subst hq
      simp [applyEvent, VsockMap.remove_socket, VsockMap.get_socket, findEntry_filter_self]
    · have hpq : p ≠ q := fun hc => hq hc.symm
      simp [applyEvent, VsockMap.remove_socket, VsockMap.get_socket,
        findEntry_filter_other _ _ _ hpq, hq]

/-- Along any trace of registry operations, a port is present in the map
exactly when the spec-side tracker says it is bound. -/
theorem runEvents_bound (evs : List RegEvent) (m : VsockMap) (p : Nat) :
    ((runEvents m evs).get_socket p).isSome
      = specBoundNotRemoved p ((m.get_socket p).isSome) evs := by
  induction evs generalizing m with
  | nil => rfl
  | cons ev evs ih =>
    simp only [runEvents, List.foldl_cons, specBoundNotRemoved] at ih ⊢
    rw [ih (applyEvent m ev), applyEvent_bound]

/-! ## Claim theorems -/

/-- Claim C7: once `bind(p)` has succeeded and `p` was not removed since
(i.e. `p` is present in the registry), a second `bind(p)` returns the
`EADDRINUSE` error and leaves the registry — in particular the existing
connection at `p` with its state, buffer and remote identity — unchanged. -/
theorem C7_rebind_address_in_use (m : VsockMap) (p : Nat) :
    ((m.get_socket p).isSome →
        (m.bind p).2 = Except.error IoError.EADDRINUSE ∧ (m.bind p).1 = m) ∧
    (m.get_socket p = none →
        (m.bind p).2 = Except.ok () ∧
        (((m.bind p).1).bind p).2 = Except.error IoError.EADDRINUSE ∧
        (((m.bind p).1).bind p).1 = (m.bind p).1 ∧
        ((m.bind p).1).get_socket p = some (RawSocket.new VsockState.Listen)) := by
  constructor
  · intro h
    unfold VsockMap.bind
    unfold VsockMap.get_socket at h
    cases hg : findEntry m.port_map p with
    | none => rw [hg] at h; simp at h
    | some s => exact ⟨rfl, rfl⟩
  · intro h
    unfold VsockMap.get_socket at h
    have hb : m.bind p
        = ({ port_map := m.port_map ++ [(p, RawSocket.new VsockState.Listen)] }, Except.ok ()) := by
      unfold VsockMap.bind
      rw [h]
    have hf : findEntry (m.port_map ++ [(p, RawSocket.new VsockState.Listen)]) p
        = some (RawSocket.new VsockState.Listen) := findEntry_append_self _ _ _ h
    refine ⟨by rw [hb], ?_, ?_, ?_⟩
    · rw [hb]
      unfold VsockMap.bind
      rw [hf]
    · rw [hb]
      unfold VsockMap.bind
      rw [hf]
    · rw [hb]
      exact hf

/-- Claim C7 witness: binding port 7 on the empty registry succeeds, and a
second bind of port 7 fails with `EADDRINUSE` leaving the listening
connection in place. -/
theorem C7_rebind_address_in_use_witness :
    (VsockMap.new.bind 7).2 = Except.ok () ∧
    (((VsockMap.new.bind 7).1).bind 7).2 = Except.error IoError.EADDRINUSE ∧
    (((VsockMap.new.bind 7).1).bind 7).1 = (VsockMap.new.bind 7).1 ∧
    ((VsockMap.new.bind 7).1).get_socket 7 = some (RawSocket.new VsockState.Listen) :=
  (C7_rebind_address_in_use VsockMap.new 7).2 rfl

/-- Claim C8: a connection exists in the registry (lookup returns `some`)
exactly when a bind of that port happened with no removal of it since
(tracked by `specBoundNotRemoved` over any trace of registry operations);
removing an absent port is a silent no-op; binds on distinct ports succeed
independently, both lookups succeed, and updating the connection at one
port never changes the connection stored at another. -/
theorem C8_registry_existence_invariant :
    (∀ evs : List RegEvent, ∀ p : Nat,
        ((runEvents VsockMap.new evs).get_socket p).isSome = specBoundNotRemoved p false evs) ∧
    (∀ m : VsockMap, ∀ p : Nat, m.get_socket p = none → m.remove_socket p = m) ∧
    (∀ p q : Nat, p ≠ q →
        (VsockMap.new.bind p).2 = Except.ok () ∧
        (((VsockMap.new.bind p).1).bind q).2 = Except.ok () ∧
        ((((VsockMap.new.bind p).1).bind q).1).get_socket p
          = some (RawSocket.new VsockState.Listen) ∧
        ((((VsockMap.new.bind p).1).bind q).1).get_socket q
          = some (RawSocket.new VsockState.Listen)) ∧
    (∀ m : VsockMap, ∀ p q : Nat, ∀ s : RawSocket, p ≠ q →
        (m.set_socket p s).get_socket q = m.get_socket q) := by
  refine ⟨?_, ?_, ?_, ?_⟩
  · intro evs p
    exact runEvents_bound evs VsockMap.new p
  · intro m p h
    unfold VsockMap.get_socket at h
    unfold VsockMap.remove_socket
    cases m with
    | mk l => rw [filter_eq_of_absent l p h]
  · intro p q hpq
    have hqp : q ≠ p := fun hc => hpq hc.symm
    have h1 : VsockMap.new.bind p
        = ({ port_map := [(p, RawSocket.new VsockState.Listen)] }, Except.ok ()) := rfl
    have hfq : findEntry [(p, RawSocket.new VsockState.Listen)] q = none := by
      simp [findEntry, hpq]
    have h2 : ({ port_map := [(p, RawSocket.new VsockState.Listen)] } : VsockMap).bind q
        = ({ port_map := [(p, RawSocket.new VsockState.Listen),
                          (q, RawSocket.new VsockState.Listen)] }, Except.ok ()) := by
      unfold VsockMap.bind
      rw [hfq]
      rfl
    refine ⟨by rw [h1], by rw [h1, h2], ?_, ?_⟩
    · rw [h1, h2]
      unfold VsockMap.get_socket
      simp [findEntry]
    · rw [h1, h2]
      unfold VsockMap.get_socket
      simp [findEntry, hpq]
  · intro m p q s hpq
    unfold VsockMap.get_socket VsockMap.set_socket
    exact findEntry_setEntry_other m.port_map p q s hpq

/-- Claim C8 witness: after binding port 5 and removing it the registry no
longer holds it while after binding alone it does; removing absent port 5
from the empty registry is a no-op; ports 1 and 2 bind independently; an
update at port 80 leaves port 81 lookups unchanged. -/
theorem C8_registry_existence_invariant_witness :
    (((runEvents VsockMap.new [RegEvent.bindEv 5, RegEvent.removeEv 5]).get_socket 5).isSome
        = specBoundNotRemoved 5 false [RegEvent.bindEv 5, RegEvent.removeEv 5]) ∧
    (VsockMap.new.remove_socket 5 = VsockMap.new) ∧
    ((((VsockMap.new.bind 1).1).bind 2).1).get_socket 2
        = some (RawSocket.new VsockState.Listen) ∧
    (exConnMap.set_socket 80 exConnectingSocket).get_socket 81 = exConnMap.get_socket 81 :=
  ⟨C8_registry_existence_invariant.1 [RegEvent.bindEv 5, RegEvent.removeEv 5] 5,
   C8_registry_existence_invariant.2.1 VsockMap.new 5 rfl,
   (C8_registry_existence_invariant.2.2.1 1 2 (by decide)).2.2.2,
   C8_registry_existence_invariant.2.2.2 exConnMap 80 81 exConnectingSocket (by decide)⟩

/-- Claim C9: the notifier is a single deduplicating slot — registering
the same waiter twice in a row changes nothing; registering two different
waiters and firing wakes exactly the most recent one; firing clears a
non-empty slot and is a no-op on an empty one; two consecutive fires
deliver at most one wake (the second delivers none). -/
theorem C9_notifier_single_slot :
    (∀ s : WakerRegistration, ∀ w : Waker,
        (s.register w).register w = s.register w) ∧
    (∀ s : WakerRegistration, ∀ w1 w2 : Waker, w1.id ≠ w2.id →
        ((s.register w1).register w2).wake = ({ waker := none }, [w2.id])) ∧
    (∀ w : Waker,
        WakerRegistration.wake { waker := some w } = ({ waker := none }, [w.id])) ∧
    (WakerRegistration.wake { waker := none } = ({ waker := none }, [])) ∧
    (∀ s : WakerRegistration, ((s.wake.1).wake).2 = []) := by
  refine ⟨?_, ?_, ?_, rfl, ?_⟩
  · intro s w
    cases s with
    | mk o =>
      cases o with
      | none => simp [WakerRegistration.register, Waker.will_wake]
      | some w2 =>
        by_cases h : w2.id = w.id
        · simp [WakerRegistration.register, Waker.will_wake, h]
        · simp [WakerRegistration.register, Waker.will_wake, h]
  · intro s w1 w2 hne
    have h12 : (w1.will_wake w2) = false := by
      simp [Waker.will_wake, hne]
    cases s with
    | mk o =>
      cases o with
      | none =>
        simp [WakerRegistration.register, h12, WakerRegistration.wake]
      | some w0 =>
        by_cases h : w0.id = w1.id
        · simp [WakerRegistration.register, Waker.will_wake, h, hne, WakerRegistration.wake]
        · simp [WakerRegistration.register, Waker.will_wake, h, hne, WakerRegistration.wake]
  · intro w
    rfl
  · intro s
    cases s with
    | mk o => cases o <;> rfl

/-- Whenever the pump remembers a header for reply construction, it is
the incoming header itself. -/
theorem handle_packet_hdr (m : VsockMap) (h : Hdr) (d : List Nat) (r : PumpEffect)
    (hr : handle_packet m h d = some r) : r.hdr = none ∨ r.hdr = some h := by
  simp only [handle_packet] at hr
  repeat' split at hr
  all_goals
    first
    | exact Option.noConfusion hr
    | (cases hr; simp)

/-- Claim C1 counterexample: a CreditRequest packet (op code 7, Stream
type) to port 999 of the empty registry — a destination port with no bound
connection.  The claim demands a CreditUpdate reply with swapped
addresses; the pump's turn instead transmits no reply packet at all (third
component `none`: the `hdr` local stays `None`, so `send_packet` is never
called), while the registry is indeed unchanged. -/
theorem C1_counterexample :
    Op.try_from (mkHdr 3 2 5 999 1 7).op = some Op.CreditRequest ∧
    VsockMap.get_socket VsockMap.new (mkHdr 3 2 5 999 1 7).dst_port = none ∧
    vsock_run_step VsockMap.new (mkHdr 3 2 5 999 1 7) [] = some (VsockMap.new, [], none) := by
  refine ⟨rfl, rfl, rfl⟩

/-- Claim C1 (amended): for every inbound packet whose destination port
has no bound connection (and whose operation and type codes decode), the
pump neither replies nor wakes anyone, and the registry is unchanged. -/
theorem C1_unbound_port_silent (m : VsockMap) (h : Hdr) (d : List Nat) (op : Op)
    (ty : VsockType)
    (hop : Op.try_from h.op = some op)
    (hty : VsockType.try_from h.type_ = some ty)
    (hget : m.get_socket h.dst_port = none) :
    handle_packet m h d = some { map := m, wakes := [], hdr := none, fwd_cnt := none } ∧
    vsock_run_step m h d = some (m, [], none) := by
  have h1 : handle_packet m h d
      = some { map := m, wakes := [], hdr := none, fwd_cnt := none } := by
    simp [handle_packet, hop, hty, hget]
  exact ⟨h1, by simp [vsock_run_step, h1]⟩

/-- Claim C1 (amended) witness: a Rst packet to unbound port 999 of the
empty registry is dropped silently with the registry unchanged. -/
theorem C1_unbound_port_silent_witness :
    handle_packet VsockMap.new (mkHdr 3 2 5 999 1 3) []
      = some { map := VsockMap.new, wakes := [], hdr := none, fwd_cnt := none } ∧
    vsock_run_step VsockMap.new (mkHdr 3 2 5 999 1 3) [] = some (VsockMap.new, [], none) :=
  C1_unbound_port_silent VsockMap.new (mkHdr 3 2 5 999 1 3) [] Op.Rst VsockType.Stream
    rfl rfl rfl

/-- Claim C2 counterexample: an inbound packet whose 16-bit operation code
is 999 — which decodes to no `Op` variant — makes the pump turn panic
(`Op::try_from(..).unwrap()`), modelled by the `none` result; the claim
demands the turn complete without a panic. -/
theorem C2_counterexample :
    Op.try_from (mkHdr 3 2 5 1234 1 999).op = none ∧
    handle_packet exListenMap (mkHdr 3 2 5 1234 1 999) [] = none ∧
    vsock_run_step exListenMap (mkHdr 3 2 5 1234 1 999) [] = none := by
  refine ⟨rfl, rfl, rfl⟩

/-- Claim C2 (amended): for every inbound packet whose operation and
socket-type codes decode to recognized enum values, whose source context
id fits in 32 bits, and whose destination connection (when bound) buffers
fewer than 2^32 bytes, one pump turn completes without panicking. -/
theorem C2_decodable_packet_no_panic (m : VsockMap) (h : Hdr) (d : List Nat) (op : Op)
    (ty : VsockType)
    (hop : Op.try_from h.op = some op)
    (hty : VsockType.try_from h.type_ = some ty)
    (hcid : h.src_cid < 2 ^ 32)
    (hbuf : ∀ raw : RawSocket, m.get_socket h.dst_port = some raw →
        raw.buffer.length < 2 ^ 32) :
    (handle_packet m h d).isSome = true ∧ (vsock_run_step m h d).isSome = true := by
  have h1 : (handle_packet m h d).isSome = true := by
    simp only [handle_packet, hop, hty]
    cases hg : m.get_socket h.dst_port with
    | none => simp
    | some raw =>
      have hcid4 : h.src_cid < 4294967296 := hcid
      have hb4 : raw.buffer.length < 4294967296 := hbuf raw hg
      by_cases hreq : op = Op.Request ∧ raw.state = VsockState.Listen ∧ ty = VsockType.Stream
      · simp [hreq, toU32, hcid4]
      · by_cases hrw : (raw.state = VsockState.Connected ∨ raw.state = VsockState.Shutdown)
            ∧ ty = VsockType.Stream ∧ op = Op.Rw
        · simp [hreq, hrw]
        · by_cases hcu : op = Op.CreditUpdate
          · simp [hreq, hrw, hcu]
          · by_cases hsd : op = Op.Shutdown
            · simp [hreq, hrw, hcu, hsd]
            · by_cases hcr : op = Op.CreditRequest
              · simp [hreq, hrw, hcu, hsd, hcr, toU32, hb4]
              · simp [hreq, hrw, hcu, hsd, hcr]
  refine ⟨h1, ?_⟩
  unfold vsock_run_step
  cases hh : handle_packet m h d with
  | none => rw [hh] at h1; simp at h1
  | some r => simp

/-- Claim C2 (amended) witness: a well-formed Rw packet to the connected
socket at port 80 (buffer empty) completes its pump turn. -/
theorem C2_decodable_packet_no_panic_witness :
    (handle_packet exConnMap (mkHdr 9 2 5 80 1 5) [1, 2]).isSome = true ∧
    (vsock_run_step exConnMap (mkHdr 9 2 5 80 1 5) [1, 2]).isSome = true :=
  C2_decodable_packet_no_panic exConnMap (mkHdr 9 2 5 80 1 5) [1, 2] Op.Rw
    VsockType.Stream rfl rfl (by decide)
    (fun raw hraw => by
      have hx : some exConnSocket = some raw := hraw
      rw [← Option.some.inj hx]
      decide)

/-- Claim C3: whenever the dispatch falls through to the fallback and
remembers a header, that header is the received one, and the reply built
for it swaps source/destination context ids and ports, has zero length,
advertises the fixed 256 KiB buffer capacity, and is a CreditUpdate
carrying the captured forward count when one was captured, otherwise a
Reset with forward count zero. -/
theorem C3_fallback_reply_shape (m : VsockMap) (h : Hdr) (d : List Nat) (r : PumpEffect)
    (h0 : Hdr) (hr : handle_packet m h d = some r) (hh : r.hdr = some h0) :
    h0 = h ∧
    vsock_run_step m h d = some (r.map, r.wakes, some (build_reply h r.fwd_cnt)) ∧
    (build_reply h r.fwd_cnt).src_cid = h.dst_cid ∧
    (build_reply h r.fwd_cnt).dst_cid = h.src_cid ∧
    (build_reply h r.fwd_cnt).src_port = h.dst_port ∧
    (build_reply h r.fwd_cnt).dst_port = h.src_port ∧
    (build_reply h r.fwd_cnt).len = 0 ∧
    (build_reply h r.fwd_cnt).buf_alloc = RAW_SOCKET_BUFFER_SIZE ∧
    (∀ c : Nat, r.fwd_cnt = some c →
        (build_reply h r.fwd_cnt).op = Op.CreditUpdate.into ∧
        (build_reply h r.fwd_cnt).fwd_cnt = c) ∧
    (r.fwd_cnt = none →
        (build_reply h r.fwd_cnt).op = Op.Rst.into ∧
        (build_reply h r.fwd_cnt).fwd_cnt = 0) := by
  have hh0 : h0 = h := by
    rcases handle_packet_hdr m h d r hr with hn | hs
    · rw [hn] at hh
      exact Option.noConfusion hh
    · rw [hs] at hh
      exact (Option.some.inj hh).symm
  refine ⟨hh0, ?_, rfl, rfl, rfl, rfl, rfl, rfl, ?_, ?_⟩
  · rw [hh0] at hh
    simp [vsock_run_step, hr, hh]
  · intro c hc
    exact ⟨by simp [build_reply, hc], by simp [build_reply, hc]⟩
  · intro hc
    exact ⟨by simp [build_reply, hc], by simp [build_reply, hc]⟩

/-- Claim C3 witness: a Response packet to the listening port 1234 matches
no dispatch rule, so the fallback fires and the turn sends a Reset reply
with swapped addresses and forward count zero. -/
theorem C3_fallback_reply_shape_witness :
    vsock_run_step exListenMap (mkHdr 3 2 5 1234 1 2) []
      = some (exListenMap, [], some (build_reply (mkHdr 3 2 5 1234 1 2) none)) ∧
    (build_reply (mkHdr 3 2 5 1234 1 2) none).op = Op.Rst.into ∧
    (build_reply (mkHdr 3 2 5 1234 1 2) none).fwd_cnt = 0 ∧
    (build_reply (mkHdr 3 2 5 1234 1 2) none).src_port = 1234 ∧
    (build_reply (mkHdr 3 2 5 1234 1 2) none).dst_port = 5 :=
  ⟨(C3_fallback_reply_shape exListenMap (mkHdr 3 2 5 1234 1 2) []
      { map := exListenMap, wakes := [], hdr := some (mkHdr 3 2 5 1234 1 2), fwd_cnt := none }
      (mkHdr 3 2 5 1234 1 2) rfl rfl).2.1,
   ((C3_fallback_reply_shape exListenMap (mkHdr 3 2 5 1234 1 2) []
      { map := exListenMap, wakes := [], hdr := some (mkHdr 3 2 5 1234 1 2), fwd_cnt := none }
      (mkHdr 3 2 5 1234 1 2) rfl rfl).2.2.2.2.2.2.2.2.2 rfl).1,
   ((C3_fallback_reply_shape exListenMap (mkHdr 3 2 5 1234 1 2) []
      { map := exListenMap, wakes := [], hdr := some (mkHdr 3 2 5 1234 1 2), fwd_cnt := none }
      (mkHdr 3 2 5 1234 1 2) rfl rfl).2.2.2.2.2.2.2.2.2 rfl).2,
   (C3_fallback_reply_shape exListenMap (mkHdr 3 2 5 1234 1 2) []
      { map := exListenMap, wakes := [], hdr := some (mkHdr 3 2 5 1234 1 2), fwd_cnt := none }
      (mkHdr 3 2 5 1234 1 2) rfl rfl).2.2.2.2.1,
   (C3_fallback_reply_shape exListenMap (mkHdr 3 2 5 1234 1 2) []
      { map := exListenMap, wakes := [], hdr := some (mkHdr 3 2 5 1234 1 2), fwd_cnt := none }
      (mkHdr 3 2 5 1234 1 2) rfl rfl).2.2.2.2.2.1⟩

/-- Claim C4 counterexample: a Request/Stream packet to the bound
listening port 1234 whose 64-bit source context id is 2^32 makes the pump
panic in `src_cid.to_ne().try_into().unwrap()` (modelled by `none`)
instead of transitioning the connection, recording the identity and
firing the notifier as the claim requires for every such packet. -/
theorem C4_counterexample :
    Op.try_from (mkHdr (2 ^ 32) 2 5 1234 1 1).op = some Op.Request ∧
    VsockType.try_from (mkHdr (2 ^ 32) 2 5 1234 1 1).type_ = some VsockType.Stream ∧
    VsockMap.get_socket exListenMap (mkHdr (2 ^ 32) 2 5 1234 1 1).dst_port
      = some (RawSocket.new VsockState.Listen) ∧
    (RawSocket.new VsockState.Listen).state = VsockState.Listen ∧
    handle_packet exListenMap (mkHdr (2 ^ 32) 2 5 1234 1 1) [] = none := by
  refine ⟨rfl, rfl, rfl, rfl, by decide⟩

/-- Claim C4 (amended): for every Request/Stream packet to a bound
listening connection whose source context id fits in 32 bits, handling
transitions the connection to `ReceiveRequest`, records the sender's
context id and port as the remote identity, fires (empties) its waker
slot, and transmits no reply. -/
theorem C4_request_to_listening (m : VsockMap) (h : Hdr) (d : List Nat) (raw : RawSocket)
    (hget : m.get_socket h.dst_port = some raw)
    (hst : raw.state = VsockState.Listen)
    (hop : Op.try_from h.op = some Op.Request)
    (hty : VsockType.try_from h.type_ = some VsockType.Stream)
    (hcid : h.src_cid < 2 ^ 32) :
    handle_packet m h d = some
      { map := m.set_socket h.dst_port
          { raw with
             state := VsockState.ReceiveRequest
             remote_cid := h.src_cid
             remote_port := h.src_port
             waker := { waker := none } }
        wakes := raw.waker.wake.2
        hdr := none
        fwd_cnt := none } ∧
    vsock_run_step m h d = some
      (m.set_socket h.dst_port
          { raw with
             state := VsockState.ReceiveRequest
             remote_cid := h.src_cid
             remote_port := h.src_port
             waker := { waker := none } },
       raw.waker.wake.2, none) := by
  have hcid4 : h.src_cid < 4294967296 := hcid
  have h1 : handle_packet m h d = some
      { map := m.set_socket h.dst_port
          { raw with
             state := VsockState.ReceiveRequest
             remote_cid := h.src_cid
             remote_port := h.src_port
             waker := { waker := none } }
        wakes := raw.waker.wake.2
        hdr := none
        fwd_cnt := none } := by
    simp [handle_packet, hop, hty, hget, hst, toU32, hcid4, WakerRegistration.wake_fst]
  exact ⟨h1, by simp [vsock_run_step, h1]⟩

/-- Claim C4 (amended) witness: a Request from context id 3, port 5 to
listening port 1234 moves the connection to `ReceiveRequest` with remote
identity (3, 5) and sends no reply. -/
theorem C4_request_to_listening_witness :
    handle_packet exListenMap (mkHdr 3 2 5 1234 1 1) [] = some
      { map := exListenMap.set_socket 1234
          { RawSocket.new VsockState.Listen with
             state := VsockState.ReceiveRequest
             remote_cid := 3
             remote_port := 5
             waker := { waker := none } }
        wakes := (RawSocket.new VsockState.Listen).waker.wake.2
        hdr := none
        fwd_cnt := none } :=
  (C4_request_to_listening exListenMap (mkHdr 3 2 5 1234 1 1) []
    (RawSocket.new VsockState.Listen) rfl rfl rfl rfl (by decide)).1

/-- Claim C5: a Stream/Rw packet to a connection in `Connected` or
`Shutdown` (ShuttingDown) state appends the payload to the receive buffer
in order, fires (empties) the waker slot, transmits no reply, and leaves
the connection's state and remote identity unchanged. -/
theorem C5_rw_appends_in_order (m : VsockMap) (h : Hdr) (d : List Nat) (raw : RawSocket)
    (hget : m.get_socket h.dst_port = some raw)
    (hst : raw.state = VsockState.Connected ∨ raw.state = VsockState.Shutdown)
    (hop : Op.try_from h.op = some Op.Rw)
    (hty : VsockType.try_from h.type_ = some VsockType.Stream) :
    handle_packet m h d = some
      { map := m.set_socket h.dst_port
          { raw with buffer := raw.buffer ++ d, waker := { waker := none } }
        wakes := raw.waker.wake.2
        hdr := none
        fwd_cnt := none } ∧
    ({ raw with buffer := raw.buffer ++ d, waker := { waker := none } } : RawSocket).state
      = raw.state ∧
    ({ raw with buffer := raw.buffer ++ d, waker := { waker := none } } : RawSocket).remote_cid
      = raw.remote_cid ∧
    ({ raw with buffer := raw.buffer ++ d, waker := { waker := none } } : RawSocket).remote_port
      = raw.remote_port ∧
    vsock_run_step m h d = some
      (m.set_socket h.dst_port
          { raw with buffer := raw.buffer ++ d, waker := { waker := none } },
       raw.waker.wake.2, none) := by
  have h1 : handle_packet m h d = some
      { map := m.set_socket h.dst_port
          { raw with buffer := raw.buffer ++ d, waker := { waker := none } }
        wakes := raw.waker.wake.2
        hdr := none
        fwd_cnt := none } := by
    rcases hst with hst | hst <;>
      simp [handle_packet, hop, hty, hget, hst, WakerRegistration.wake_fst]
  exact ⟨h1, rfl, rfl, rfl, by simp [vsock_run_step, h1]⟩

/-- Claim C5 witness: delivering payloads `[65, 66]` ("AB") then
`[67, 68]` ("CD") to the connected port 80 yields buffer
`[65, 66, 67, 68]` ("ABCD"), in order. -/
theorem C5_rw_appends_in_order_witness :
    handle_packet exConnMap (mkHdr 9 2 5 80 1 5) [65, 66] = some
      { map := exConnMap1, wakes := [7], hdr := none, fwd_cnt := none } ∧
    handle_packet exConnMap1 (mkHdr 9 2 5 80 1 5) [67, 68] = some
      { map := exConnMap1.set_socket 80
          { exConnSocket1 with buffer := [65, 66, 67, 68], waker := { waker := none } }
        wakes := [], hdr := none, fwd_cnt := none } ∧
    (exConnMap1.set_socket 80
        { exConnSocket1 with buffer := [65, 66, 67, 68], waker := { waker := none } }).get_socket 80
      = some { exConnSocket1 with buffer := [65, 66, 67, 68], waker := { waker := none } } := by
  refine ⟨?_, ?_, by decide⟩
  · exact (C5_rw_appends_in_order exConnMap (mkHdr 9 2 5 80 1 5) [65, 66] exConnSocket
      rfl (Or.inl rfl) rfl rfl).1
  · exact (C5_rw_appends_in_order exConnMap1 (mkHdr 9 2 5 80 1 5) [67, 68] exConnSocket1
      rfl (Or.inl rfl) rfl rfl).1

/-- Claim C6 counterexample: a packet whose operation code is Shutdown but
whose 16-bit socket-type code is 0 — which decodes to no `Type` variant —
makes the pump panic in `Type::try_from(..).unwrap()` (modelled by
`none`) before the dispatch runs, so the bound connection at port 80 is
not moved to `Shutdown` as the claim requires for every Shutdown packet. -/
theorem C6_counterexample :
    Op.try_from (mkHdr 3 2 5 80 0 4).op = some Op.Shutdown ∧
    VsockMap.get_socket exConnMap (mkHdr 3 2 5 80 0 4).dst_port = some exConnSocket ∧
    VsockType.try_from (mkHdr 3 2 5 80 0 4).type_ = none ∧
    handle_packet exConnMap (mkHdr 3 2 5 80 0 4) [] = none := by
  refine ⟨rfl, rfl, rfl, rfl⟩

/-- Claim C6 (amended): for every packet with operation Shutdown (and a
socket-type code that decodes) addressed to a bound connection, handling
sets that connection's state to `Shutdown` (ShuttingDown) whatever its
prior state, leaves its buffer, remote identity and waker untouched, and
transmits no reply. -/
theorem C6_shutdown_any_state (m : VsockMap) (h : Hdr) (d : List Nat) (raw : RawSocket)
    (ty : VsockType)
    (hget : m.get_socket h.dst_port = some raw)
    (hop : Op.try_from h.op = some Op.Shutdown)
    (hty : VsockType.try_from h.type_ = some ty) :
    handle_packet m h d = some
      { map := m.set_socket h.dst_port { raw with state := VsockState.Shutdown }
        wakes := [], hdr := none, fwd_cnt := none } ∧
    ({ raw with state := VsockState.Shutdown } : RawSocket).buffer = raw.buffer ∧
    ({ raw with state := VsockState.Shutdown } : RawSocket).remote_cid = raw.remote_cid ∧
    ({ raw with state := VsockState.Shutdown } : RawSocket).remote_port = raw.remote_port ∧
    ({ raw with state := VsockState.Shutdown } : RawSocket).waker = raw.waker ∧
    vsock_run_step m h d = some
      (m.set_socket h.dst_port { raw with state := VsockState.Shutdown }, [], none) := by
  have h1 : handle_packet m h d = some
      { map := m.set_socket h.dst_port { raw with state := VsockState.Shutdown }
        wakes := [], hdr := none, fwd_cnt := none } := by
    simp [handle_packet, hop, hty, hget]
  exact ⟨h1, rfl, rfl, rfl, rfl, by simp [vsock_run_step, h1]⟩

/-- Claim C6 (amended) witness: a Shutdown packet to port 44, whose
connection is in `Connecting` state with buffer `[42]` and remote identity
(9, 10), moves it to `Shutdown` keeping buffer, identity and waker. -/
theorem C6_shutdown_any_state_witness :
    handle_packet exConnectingMap (mkHdr 3 2 5 44 1 4) [] = some
      { map := exConnectingMap.set_socket 44
          { exConnectingSocket with state := VsockState.Shutdown }
        wakes := [], hdr := none, fwd_cnt := none } ∧
    ({ exConnectingSocket with state := VsockState.Shutdown } : RawSocket).buffer
      = exConnectingSocket.buffer :=
  ⟨(C6_shutdown_any_state exConnectingMap (mkHdr 3 2 5 44 1 4) [] exConnectingSocket
      VsockType.Stream rfl rfl rfl).1,
   (C6_shutdown_any_state exConnectingMap (mkHdr 3 2 5 44 1 4) [] exConnectingSocket
      VsockType.Stream rfl rfl rfl).2.1⟩

/-- Claim C10: a Request/Stream packet to a bound listening connection
whose 64-bit source context id does not fit in 32 bits makes the pump
panic (the unchecked `try_into().unwrap()` at the remote-identity
recording, modelled by `none`), aborting the turn. -/
theorem C10_oversized_cid_panics (m : VsockMap) (h : Hdr) (d : List Nat) (raw : RawSocket)
    (hget : m.get_socket h.dst_port = some raw)
    (hst : raw.state = VsockState.Listen)
    (hop : Op.try_from h.op = some Op.Request)
    (hty : VsockType.try_from h.type_ = some VsockType.Stream)
    (hcid : 2 ^ 32 ≤ h.src_cid) :
    handle_packet m h d = none ∧ vsock_run_step m h d = none := by
  have hnot : ¬ h.src_cid < 4294967296 := Nat.not_lt.mpr hcid
  have h1 : handle_packet m h d = none := by
    simp [handle_packet, hop, hty, hget, hst, toU32, hnot]
  exact ⟨h1, by simp [vsock_run_step, h1]⟩

/-- Claim C10 witness: a Request with source context id 2^32 + 1 to the
bound listening port 1234 panics the pump turn. -/
theorem C10_oversized_cid_panics_witness :
    handle_packet exListenMap (mkHdr (2 ^ 32 + 1) 2 5 1234 1 1) [] = none ∧
    vsock_run_step exListenMap (mkHdr (2 ^ 32 + 1) 2 5 1234 1 1) [] = none :=
  C10_oversized_cid_panics exListenMap (mkHdr (2 ^ 32 + 1) 2 5 1234 1 1) []
    (RawSocket.new VsockState.Listen) rfl rfl rfl rfl (by decide)

/-- Claim C9 witness: registering waiter 1 twice equals registering it
once; registering waiters 1 then 2 and firing wakes exactly task 2; a
double fire from a full slot delivers nothing the second time. -/
theorem C9_notifier_single_slot_witness :
    ((WakerRegistration.new.register { id := 1 }).register { id := 1 }
        = WakerRegistration.new.register { id := 1 }) ∧
    (((WakerRegistration.new.register { id := 1 }).register { id := 2 }).wake
        = ({ waker := none }, [2])) ∧
    ((({ waker := some { id := 7 } } : WakerRegistration).wake.1).wake).2 = [] :=
  ⟨C9_notifier_single_slot.1 WakerRegistration.new { id := 1 },
   C9_notifier_single_slot.2.1 WakerRegistration.new { id := 1 } { id := 2 } (by decide),
   C9_notifier_single_slot.2.2.2.2 { waker := some { id := 7 } }⟩

end VsockModel
